import Mathlib

/-!
Shallow embedding of the bm_client core (bitmessage-style p2p client):
wire primitives, the object envelope with proof-of-work, the addr codec,
and the per-connection state machine and respond worker, together with
theorems checking the natural-language specification against the code.

Bytes are modelled as `Nat` values below 256, byte strings as `List Nat`,
timestamps (`time::Timespec`) as `Int` seconds, and fallible readers as
`Except ParseError`.
-/

set_option maxRecDepth 100000

/-- Big-endian value of a byte string. -/
def beVal (bs : List Nat) : Nat := bs.foldl (fun acc b => acc * 256 + b) 0

/-- The `n`-byte big-endian encoding of `v % 256^n`. -/
def beBytes (n : Nat) (v : Nat) : List Nat :=
  (List.range n).map (fun i => v / 256 ^ (n - 1 - i) % 256)

/-- Encoding of a signed 64-bit value (`i64` written big-endian, two's complement). -/
def i64ToBytes (v : Int) : List Nat := beBytes 8 ((v % (2 ^ 64 : Int)).toNat)

/-- Decoding of 8 big-endian bytes as a signed 64-bit value. -/
def bytesToI64 (bs : List Nat) : Int :=
  let n := beVal bs
  if n < 2 ^ 63 then (n : Int) else (n : Int) - 2 ^ 64

/-- Truncation to a 64-bit word. -/
def w64 (n : Nat) : Nat := n % 2 ^ 64

/-- Bitwise exclusive or on 64-bit words. -/
def bxor (a b : Nat) : Nat := a ^^^ b

/-- Bitwise and on 64-bit words. -/
def band (a b : Nat) : Nat := a &&& b

/-- 64-bit bitwise complement of `a < 2^64`. -/
def bnot (a : Nat) : Nat := 2 ^ 64 - 1 - a

/-- Rotate a 64-bit word right by `k` (for `0 < k < 64`). -/
def rotr (k x : Nat) : Nat := x / 2 ^ k + x % 2 ^ k * 2 ^ (64 - k)

/-- Logical shift right. -/
def shr (k x : Nat) : Nat := x / 2 ^ k

/-- Bounded integer root: largest `r ≤ hi` with `r^e ≤ n`, by bisection on `[lo, hi)`
with explicit fuel. -/
def rootSearch (e : Nat) : Nat → Nat → Nat → Nat → Nat
  | 0, _, lo, _ => lo
  | fuel + 1, n, lo, hi =>
    if hi ≤ lo + 1 then lo
    else
      let mid := (lo + hi) / 2
      if mid ^ e ≤ n then rootSearch e fuel n mid hi else rootSearch e fuel n lo mid

/-- Integer `e`-th root of `n` (exact floor for `n < 2^300`). -/
def introot (e n : Nat) : Nat := rootSearch e 300 n 0 (n + 1)

/-- Primality test by trial division. -/
def isPrimeNat (n : Nat) : Bool :=
  decide (2 ≤ n) && (List.range n).all (fun d => d < 2 || n % d != 0)

/-- The first 80 primes (2, 3, 5, ..., 409). -/
def primes80 : List Nat := (List.range 410).filter isPrimeNat

/-- First 64 bits of the fractional part of the square root of `p`. -/
def sqrtFracBits (p : Nat) : Nat := introot 2 (p * 2 ^ 128) % 2 ^ 64

/-- First 64 bits of the fractional part of the cube root of `p`. -/
def cbrtFracBits (p : Nat) : Nat := introot 3 (p * 2 ^ 192) % 2 ^ 64

/-- SHA-512 initial hash value: fractional square-root bits of the first 8 primes. -/
def shaH0 : List Nat := (primes80.take 8).map sqrtFracBits

/-- SHA-512 round constants: fractional cube-root bits of the first 80 primes. -/
def shaK : List Nat := primes80.map cbrtFracBits

/-- SHA-512 message-schedule sigma-0. -/
def ssig0 (x : Nat) : Nat := bxor (bxor (rotr 1 x) (rotr 8 x)) (shr 7 x)

/-- SHA-512 message-schedule sigma-1. -/
def ssig1 (x : Nat) : Nat := bxor (bxor (rotr 19 x) (rotr 61 x)) (shr 6 x)

/-- SHA-512 round function Sigma-0. -/
def bsig0 (x : Nat) : Nat := bxor (bxor (rotr 28 x) (rotr 34 x)) (rotr 39 x)

/-- SHA-512 round function Sigma-1. -/
def bsig1 (x : Nat) : Nat := bxor (bxor (rotr 14 x) (rotr 18 x)) (rotr 41 x)

/-- SHA-2 choose function. -/
def chF (x y z : Nat) : Nat := bxor (band x y) (band (bnot x) z)

/-- SHA-2 majority function. -/
def majF (x y z : Nat) : Nat := bxor (bxor (band x y) (band x z)) (band y z)

/-- One step of the SHA-512 message-schedule extension. -/
def scheduleStep (acc : List Nat) : List Nat :=
  let n := acc.length
  acc ++ [w64 (ssig1 (acc.getD (n - 2) 0) + acc.getD (n - 7) 0 +
               ssig0 (acc.getD (n - 15) 0) + acc.getD (n - 16) 0)]

/-- Extend 16 block words to the 80-word SHA-512 message schedule. -/
def schedule (ws : List Nat) : List Nat :=
  (List.range 64).foldl (fun acc _ => scheduleStep acc) ws

/-- One SHA-512 round applied to the 8-word working state. -/
def roundStep (st : List Nat) (kw : Nat × Nat) : List Nat :=
  match st with
  | [a, b, c, d, e, f, g, h] =>
    let t1 := w64 (h + bsig1 e + chF e f g + kw.1 + kw.2)
    let t2 := w64 (bsig0 a + majF a b c)
    [w64 (t1 + t2), a, b, c, w64 (d + t1), e, f, g]
  | _ => st

/-- SHA-512 compression of one 128-byte block into the 8-word state. -/
def compress (st : List Nat) (block : List Nat) : List Nat :=
  let ws := schedule ((List.range 16).map (fun i => beVal ((block.drop (8 * i)).take 8)))
  let fin := (shaK.zip ws).foldl roundStep st
  (st.zip fin).map (fun p => w64 (p.1 + p.2))

/-- Merkle–Damgård padding for SHA-512. -/
def shaPad (msg : List Nat) : List Nat :=
  let l := msg.length
  msg ++ [0x80] ++ List.replicate ((240 - (l + 1) % 128) % 128) 0 ++ beBytes 16 (8 * l)

/-- Split a list into chunks of `n` bytes (fuel-based). -/
def chunksAux : Nat → Nat → List Nat → List (List Nat)
  | 0, _, _ => []
  | _ + 1, _, [] => []
  | fuel + 1, n, l => l.take n :: chunksAux fuel n (l.drop n)

/-- Split a list into chunks of `n` bytes. -/
def chunks (n : Nat) (l : List Nat) : List (List Nat) := chunksAux l.length n l

/-- SHA-512 of a byte string, as 64 bytes. -/
def sha512 (msg : List Nat) : List Nat :=
  ((chunks 128 (shaPad msg)).foldl compress shaH0).flatMap (fun w => beBytes 8 w)

/-- Modelled from the spec: `message::pow` is not among the provided sources.
`VerifyError` follows §4.C's error taxonomy for `verify_proof`. -/
inductive VerifyError
  | ObjectAlreadyDied
  | ObjectLivesTooLong
  | UnacceptableProof
deriving DecidableEq, Repr

/-- Modelled from the spec: `ProofOfWorkConfig` (§3) with its
`{nonce_trials_per_byte, extra_bytes, past_grace, future_grace/max_ttl,
cutoff_window, time_source}` fields; the time source is modelled by the
current time it yields. -/
structure ProofOfWorkConfig where
  nonce_trials_per_byte : Nat
  extra_bytes : Nat
  past_grace : Int
  max_ttl : Int
  cutoff_window : Int
  now : Int
deriving DecidableEq, Repr

/-- Modelled from the spec: the PoW target of §4.C,
`2^64 / (trials_per_byte * (L + extra_bytes + ttl * (L + extra_bytes) / 2^16))`
with `L = 64 + 8 + len(body)` (integer arithmetic). -/
def powTarget (cfg : ProofOfWorkConfig) (bodyLen ttl : Nat) : Nat :=
  let L := 64 + 8 + bodyLen
  2 ^ 64 / (cfg.nonce_trials_per_byte *
    (L + cfg.extra_bytes + ttl * (L + cfg.extra_bytes) / 2 ^ 16))

/-- Modelled from the spec: `trial(nonce)`, the first 8 bytes (big-endian) of
the double SHA-512 of `nonce_be8 || initial_hash` (§4.C). -/
def powTrial (nonce : Nat) (initialHash : List Nat) : Nat :=
  beVal ((sha512 (sha512 (beBytes 8 nonce ++ initialHash))).take 8)

/-- Modelled from the spec: `verify_proof` (§4.C): fails `ObjectAlreadyDied`
when `expiry < now − past_grace`, `ObjectLivesTooLong` when
`expiry > now + max_ttl`, `UnacceptableProof` when `trial(nonce) > target`
with `ttl = max(0, expiry − now)`. -/
def verify_proof (nonce : Nat) (body : List Nat) (expiry : Int)
    (cfg : ProofOfWorkConfig) : Except VerifyError Unit :=
  if expiry < cfg.now - cfg.past_grace then .error .ObjectAlreadyDied
  else if expiry > cfg.now + cfg.max_ttl then .error .ObjectLivesTooLong
  else if powTrial nonce (sha512 body) ≤ powTarget cfg body.length (expiry - cfg.now).toNat
    then .ok ()
  else .error .UnacceptableProof

/-- The error taxonomy of §7 (`message::ParseError`; the enum itself lives in
`message/mod.rs`, its constructors are fixed by §7 and the uses in the sources). -/
inductive ParseError
  | BadMagic
  | ShortRead
  | PayloadTooBig
  | BadChecksum
  | UnknownCommand
  | VarIntTooLarge
  | TrailingBytes
  | BadEndpoint
  | UnknownObjectType
  | UnknownObjectVersion
  | ObjectExpired
  | ObjectLivesTooLong
  | UnacceptablePow
deriving DecidableEq, Repr

/-- Modelled from the spec: `message::read_bytes`; a cursor is the list of
bytes not yet consumed, a short read fails with `ShortRead` (§7). -/
def read_bytes (n : Nat) (s : List Nat) : Except ParseError (List Nat × List Nat) :=
  if s.length < n then .error .ShortRead else .ok (s.take n, s.drop n)

/-- Modelled from the spec: `message::read_u32` (4 big-endian bytes, §4.A). -/
def read_u32 (s : List Nat) : Except ParseError (Nat × List Nat) :=
  match read_bytes 4 s with
  | .error e => .error e
  | .ok (bs, r) => .ok (beVal bs, r)

/-- Modelled from the spec: `message::read_u64` (8 big-endian bytes, §4.A). -/
def read_u64 (s : List Nat) : Except ParseError (Nat × List Nat) :=
  match read_bytes 8 s with
  | .error e => .error e
  | .ok (bs, r) => .ok (beVal bs, r)

/-- Modelled from the spec: `message::read_timestamp` (signed 64-bit seconds,
§4.A). -/
def read_timestamp (s : List Nat) : Except ParseError (Int × List Nat) :=
  match read_bytes 8 s with
  | .error e => .error e
  | .ok (bs, r) => .ok (bytesToI64 bs, r)

/-- Modelled from the spec: `message::read_u16` (2 big-endian bytes, §4.A). -/
def read_u16 (s : List Nat) : Except ParseError (Nat × List Nat) :=
  match read_bytes 2 s with
  | .error e => .error e
  | .ok (bs, r) => .ok (beVal bs, r)

/-- Modelled from the spec: `message::read_var_int` (§4.A): first byte
`< 0xfd` is the value, `0xfd`/`0xfe`/`0xff` prefix 2/4/8 big-endian bytes;
fails `VarIntTooLarge` when the caller-supplied maximum is exceeded. -/
def read_var_int (maxValue : Nat) (s : List Nat) : Except ParseError (Nat × List Nat) :=
  match s with
  | [] => .error .ShortRead
  | b :: rest =>
    match (if b < 0xfd then Except.ok (b, rest)
           else if b = 0xfd then read_u16 rest
           else if b = 0xfe then read_u32 rest
           else read_u64 rest) with
    | .error e => .error e
    | .ok (v, r) => if maxValue < v then .error .VarIntTooLarge else .ok (v, r)

/-- Modelled from the spec: `message::check_no_more_data`: "Every decoder
verifies no trailing bytes remain after the declared structure" (§4.B),
failing with `TrailingBytes` (§7). -/
def check_no_more_data (s : List Nat) : Except ParseError Unit :=
  if s.isEmpty then .ok () else .error .TrailingBytes

/-- Modelled from the spec: `message::write_var_int_16` (§4.A, values below
2^16). -/
def write_var_int_16 (v : Nat) : List Nat :=
  if v < 0xfd then [v] else 0xfd :: beBytes 2 v

/-- Modelled from the spec: `message::write_var_int_64` (§4.A). -/
def write_var_int_64 (v : Nat) : List Nat :=
  if v < 0xfd then [v]
  else if v ≤ 0xffff then 0xfd :: beBytes 2 v
  else if v ≤ 0xffffffff then 0xfe :: beBytes 4 v
  else 0xff :: beBytes 8 v

/-- Object type codes, from `message/object/mod.rs` (`ObjectType`). -/
inductive ObjectType
  | GetPubKey
  | PubKey
  | Msg
  | Broadcast
deriving DecidableEq, Repr

/-- `parse_object_type_code` from `message/object/mod.rs`: codes 0..3, any
other code fails with `UnknownObjectType`. -/
def parse_object_type_code (code : Nat) : Except ParseError ObjectType :=
  match code with
  | 0 => .ok .GetPubKey
  | 1 => .ok .PubKey
  | 2 => .ok .Msg
  | 3 => .ok .Broadcast
  | _ => .error .UnknownObjectType

/-- `object_type_code` from `message/object/mod.rs`. -/
def object_type_code (t : ObjectType) : Nat :=
  match t with
  | .GetPubKey => 0
  | .PubKey => 1
  | .Msg => 2
  | .Broadcast => 3

/-- The polymorphic object body (`Box<Object>` in `message/object/mod.rs`);
the only implementation among the sources is `GetPubKeyV4`, whose body the
spec's object-envelope scenario fixes as empty. -/
inductive ObjBody
  | getPubKeyV4
deriving DecidableEq, Repr

/-- Modelled from the spec: `GetPubKeyV4::read` (`message/object/get_pub_key.rs`
is not among the provided sources); per the §8 object-envelope scenario the
v4 `GetPubKey` body is empty, so the reader consumes no bytes. -/
def GetPubKeyV4.read (s : List Nat) : Except ParseError (ObjBody × List Nat) :=
  .ok (.getPubKeyV4, s)

/-- `read_object` from `message/object/mod.rs`: dispatch on the
`(object_type, version)` pair; only `(GetPubKey, 4)` is known, every other
pair fails with `UnknownObjectVersion`. -/
def read_object (t : ObjectType) (version : Nat) (s : List Nat) :
    Except ParseError (ObjBody × List Nat) :=
  match t, version with
  | .GetPubKey, 4 => GetPubKeyV4.read s
  | _, _ => .error .UnknownObjectVersion

/-- `verify_to_parse_error` from `message/object/mod.rs`. -/
def verify_to_parse_error (e : VerifyError) : ParseError :=
  match e with
  | .ObjectAlreadyDied => .ObjectExpired
  | .ObjectLivesTooLong => .ObjectLivesTooLong
  | .UnacceptableProof => .UnacceptablePow

/-- Modelled from the spec: `MAX_PAYLOAD_LENGTH_FOR_OBJECT`
(`message/mod.rs` is not among the provided sources); §6 fixes the `object`
length bound at 2^18 bytes. -/
def MAX_PAYLOAD_LENGTH_FOR_OBJECT : Nat := 2 ^ 18

/-- Modelled from the spec: `OBJECT_EXPIRY_CUTOFF` (`message/mod.rs` is not
among the provided sources); §8's PoW-expired scenario fixes it at 300 s. -/
def OBJECT_EXPIRY_CUTOFF : Int := 300

/-- Modelled from the spec: `MAX_TTL` (`message/mod.rs` is not among the
provided sources); the spec gives no numeric value, so 28 days is assumed.
The claims below depend only on `300 ≤ MAX_TTL`. -/
def MAX_TTL : Int := 28 * 24 * 60 * 60

/-- `ObjectMessage` from `message/object/mod.rs`. -/
structure ObjectMessage where
  nonce : Nat
  expiry : Int
  object_type : ObjectType
  version : Nat
  stream_number : Nat
  object : ObjBody
deriving DecidableEq, Repr

/-- `ObjectMessage::read_with_time` from `message/object/mod.rs`: length
check against `MAX_PAYLOAD_LENGTH_FOR_OBJECT` (the source takes
`payload.len() as u32`, modelled by the reduction mod 2^32), then nonce,
expiry, the PoW check over the payload bytes after the nonce, then object
type code, version, stream number, body dispatch and the trailing-bytes
check. -/
def ObjectMessage.read_with_time (now : Int) (payload : List Nat) :
    Except ParseError ObjectMessage :=
  if payload.length % 2 ^ 32 > MAX_PAYLOAD_LENGTH_FOR_OBJECT then .error .PayloadTooBig
  else
    match read_u64 payload with
    | .error e => .error e
    | .ok (nonce, s1) =>
      match read_timestamp s1 with
      | .error e => .error e
      | .ok (expiry, s2) =>
        match verify_proof nonce (payload.drop 8) expiry
            ⟨1000, 1000, OBJECT_EXPIRY_CUTOFF, MAX_TTL, 300, now⟩ with
        | .error e => .error (verify_to_parse_error e)
        | .ok _ =>
          match read_u32 s2 with
          | .error e => .error e
          | .ok (code, s3) =>
            match parse_object_type_code code with
            | .error e => .error e
            | .ok object_type =>
              match read_var_int (2 ^ 64 - 1) s3 with
              | .error e => .error e
              | .ok (version, s4) =>
                match read_var_int (2 ^ 64 - 1) s4 with
                | .error e => .error e
                | .ok (stream_number, s5) =>
                  match read_object object_type version s5 with
                  | .error e => .error e
                  | .ok (object, s6) =>
                    match check_no_more_data s6 with
                    | .error e => .error e
                    | .ok _ =>
                      .ok ⟨nonce, expiry, object_type, version, stream_number, object⟩

/-- `create_object_message_payload` from `message/object/mod.rs`. -/
def create_object_message_payload (expiry : Int) (object_type : ObjectType)
    (version stream_number : Nat) : List Nat :=
  i64ToBytes expiry ++ beBytes 4 (object_type_code object_type) ++
    write_var_int_64 version ++ write_var_int_64 stream_number

/-- `ObjectMessage::payload` (the `Message` impl in `message/object/mod.rs`):
the 8-byte nonce followed by `create_object_message_payload`. -/
def ObjectMessage.payload (m : ObjectMessage) : List Nat :=
  beBytes 8 m.nonce ++
    create_object_message_payload m.expiry m.object_type m.version m.stream_number

/-- Socket addresses (`std::net::SocketAddr`): an IPv4 address with port, or
an IPv6 address kept as its 16 raw bytes with port. -/
inductive SocketAddr
  | v4 (a b c d : Nat) (port : Nat)
  | v6 (addrBytes : List Nat) (port : Nat)
deriving DecidableEq, Repr

/-- Modelled from the spec: `message::write_address_and_port` (§4.A, §6): a
16-byte address, IPv4 mapped into `::ffff:0:0/96`, followed by the 2-byte
big-endian port. -/
def write_address_and_port (sa : SocketAddr) : List Nat :=
  match sa with
  | .v4 a b c d port => List.replicate 10 0 ++ [0xff, 0xff, a, b, c, d] ++ beBytes 2 port
  | .v6 bs port => bs ++ beBytes 2 port

/-- Modelled from the spec: `message::read_address_and_port` (§4.A, §6):
16 address bytes then a 2-byte port; an address with the IPv4-mapped prefix
is returned as an IPv4 address. -/
def read_address_and_port (s : List Nat) : Except ParseError (SocketAddr × List Nat) :=
  match read_bytes 16 s with
  | .error e => .error e
  | .ok (ab, r1) =>
    match read_bytes 2 r1 with
    | .error e => .error e
    | .ok (pb, r2) =>
      if ab.take 12 = List.replicate 10 0 ++ [0xff, 0xff] then
        match ab.drop 12 with
        | [a, b, c, d] => .ok (.v4 a b c d (beVal pb), r2)
        | _ => .ok (.v6 ab (beVal pb), r2)
      else .ok (.v6 ab (beVal pb), r2)

/-- `KnownNode` from `known_nodes.rs`:
`{last_seen, stream, services, socket_addr}`. -/
structure KnownNode where
  last_seen : Int
  stream : Nat
  services : Nat
  socket_addr : SocketAddr
deriving DecidableEq, Repr

/-- Modelled from the spec: the fallible `KnownNode::new` constructor used by
`AddrMessage::read` (the variant of `known_nodes.rs` it compiles against is
not among the provided sources). §4.B says records failing endpoint
validation are silently dropped but names no failing condition for an
already-resolved endpoint, so validation always succeeds here. -/
def KnownNode.make (last_seen : Int) (stream : Nat) (services : Nat)
    (socket_addr : SocketAddr) : Option KnownNode :=
  some ⟨last_seen, stream, services, socket_addr⟩

/-- Modelled from the spec: `MAX_NODES_COUNT` (`message/mod.rs` is not among
the provided sources); §4.B and §6 fix `addr.count ≤ 1000`. -/
def MAX_NODES_COUNT : Nat := 1000

/-- `AddrMessage` from `message/addr.rs`. -/
structure AddrMessage where
  addr_list : List KnownNode
deriving DecidableEq, Repr

/-- The record-reading loop of `AddrMessage::read`: `count` records of
`(timestamp, stream, services, endpoint)`, dropping records whose
`KnownNode` construction fails. -/
def readKnownNodes : Nat → List Nat → List KnownNode →
    Except ParseError (List KnownNode × List Nat)
  | 0, s, acc => .ok (acc.reverse, s)
  | n + 1, s, acc =>
    match read_timestamp s with
    | .error e => .error e
    | .ok (timestamp, s1) =>
      match read_u32 s1 with
      | .error e => .error e
      | .ok (stream, s2) =>
        match read_u64 s2 with
        | .error e => .error e
        | .ok (services, s3) =>
          match read_address_and_port s3 with
          | .error e => .error e
          | .ok (addr, s4) =>
            match KnownNode.make timestamp stream services addr with
            | some node => readKnownNodes n s4 (node :: acc)
            | none => readKnownNodes n s4 acc

/-- `AddrMessage::read` from `message/addr.rs`: a var-int count bounded by
`MAX_NODES_COUNT`, the records, then the trailing-bytes check. -/
def AddrMessage.read (payload : List Nat) : Except ParseError AddrMessage :=
  match read_var_int MAX_NODES_COUNT payload with
  | .error e => .error e
  | .ok (count, s1) =>
    match readKnownNodes count s1 [] with
    | .error e => .error e
    | .ok (nodes, s2) =>
      match check_no_more_data s2 with
      | .error e => .error e
      | .ok _ => .ok ⟨nodes⟩

/-- `AddrMessage::payload` (the `Message` impl in `message/addr.rs`): the
var-int count, then per node the 8-byte timestamp, 4-byte stream, 8-byte
services and the endpoint. -/
def AddrMessage.payload (m : AddrMessage) : List Nat :=
  write_var_int_16 m.addr_list.length ++
    m.addr_list.flatMap (fun nd =>
      i64ToBytes nd.last_seen ++ beBytes 4 nd.stream ++ beBytes 8 nd.services ++
        write_address_and_port nd.socket_addr)

/-- The `Message` enum matched on by `connection.rs` (§3's closed sum over
the six variants). -/
inductive Message
  | Version (version : Nat) (services : Nat) (timestamp : Int)
      (addr_recv addr_from : SocketAddr) (nonce : Nat) (user_agent : String)
      (streams : List Nat)
  | Verack
  | Addr (addr_list : List KnownNode)
  | Inv (inventory : List (List Nat))
  | GetData (inventory : List (List Nat))
  | Object (message : ObjectMessage)
deriving DecidableEq, Repr

/-- Whether a `Message` is a `Version` frame. -/
def Message.isVersionMsg : Message → Bool
  | .Version _ _ _ _ _ _ _ _ => true
  | _ => false

/-- Whether a `Message` is a `Verack` frame. -/
def Message.isVerackMsg : Message → Bool
  | .Verack => true
  | _ => false

/-- Whether a `Message` is a `GetData` frame. -/
def Message.isGetDataMsg : Message → Bool
  | .GetData _ => true
  | _ => false

/-- `ConnectionState` from `connection.rs`. -/
inductive ConnectionState
  | Fresh (t : Int)
  | GotVerackAwaitingVersion (t : Int)
  | GotVersionAwaitingVerack (t : Int)
  | Established (t : Int)
  | Stale
  | Error
deriving DecidableEq, Repr

/-- What the state worker's non-blocking `try_recv` on the read channel
yields: nothing, a closed channel, a forwarded parse error, or a parsed
frame. -/
inductive RecvEvent
  | empty
  | disconnected
  | parseFailure (e : ParseError)
  | received (m : Message)
deriving DecidableEq, Repr

/-- The state worker's transition match of `create_state_thread`
(`connection.rs` lines 135–148): new state and the frames forwarded to the
respond worker, with `now` the `get_time()` observed there. -/
def stateTransition (current : ConnectionState) (event : RecvEvent) (now : Int) :
    ConnectionState × List Message :=
  match current, event with
  | _, .empty => (current, [])
  | _, .disconnected => (.Error, [])
  | _, .parseFailure _ => (.Error, [])
  | .Fresh _, .received (.Version v s ts ar af n ua st) =>
    (.GotVersionAwaitingVerack now, [.Version v s ts ar af n ua st])
  | .Fresh _, .received .Verack => (.GotVerackAwaitingVersion now, [])
  | .Fresh _, .received _ => (.Error, [])
  | .GotVersionAwaitingVerack _, .received .Verack => (.Established now, [.Verack])
  | .GotVersionAwaitingVerack _, .received _ => (.Error, [])
  | .GotVerackAwaitingVersion _, .received (.Version v s ts ar af n ua st) =>
    (.Established now, [.Version v s ts ar af n ua st])
  | .GotVerackAwaitingVersion _, .received _ => (.Error, [])
  | .Established _, .received m => (.Established now, [m])
  | _, .received _ => (current, [])

/-- `check_staleness` from `connection.rs`: the new cell value after the
check, `Stale` exactly when `now > time + duration`. -/
def check_staleness (current : ConnectionState) (time : Int) (duration : Int)
    (now : Int) : ConnectionState :=
  if now > time + duration then .Stale else current

/-- The staleness match after each transition (`connection.rs` lines
155–161): 20 s for the pre-established states, 10 min for `Established`,
no check for `Stale` and `Error`. -/
def stalenessUpdate (s : ConnectionState) (now : Int) : ConnectionState :=
  match s with
  | .Fresh t => check_staleness s t 20 now
  | .GotVersionAwaitingVerack t => check_staleness s t 20 now
  | .GotVerackAwaitingVersion t => check_staleness s t 20 now
  | .Established t => check_staleness s t 600 now
  | _ => s

/-- One iteration of the state worker's loop: the `try_recv` outcome and the
two `get_time()` readings (at the transition and at the staleness check). -/
structure Tick where
  event : RecvEvent
  transitionTime : Int
  checkTime : Int
deriving DecidableEq, Repr

/-- Whether a state is one of the two states on which the state worker's
loop breaks (`Stale` or `Error`). -/
def ConnectionState.isTerminal : ConnectionState → Bool
  | .Stale => true
  | .Error => true
  | _ => false

/-- The writes one loop iteration performs on the shared state cell:
`set_state(new_state)`, then the staleness write exactly when the check
fires (in which case the post-check value differs from `new_state`). -/
def iterationWrites (newState afterCheck : ConnectionState) : List ConnectionState :=
  if afterCheck = newState then [newState] else [newState, afterCheck]

/-- The sequence of writes the state worker performs on the shared state
cell, one loop iteration per tick: the transition's write, the staleness
write when it fires, and the loop exit as soon as the cell reads `Stale` or
`Error` (`create_state_thread`, `connection.rs` lines 150–170). -/
def stateLoopWrites : ConnectionState → List Tick → List ConnectionState
  | _, [] => []
  | current, tk :: rest =>
    if (stalenessUpdate (stateTransition current tk.event tk.transitionTime).1
        tk.checkTime).isTerminal then
      iterationWrites (stateTransition current tk.event tk.transitionTime).1
        (stalenessUpdate (stateTransition current tk.event tk.transitionTime).1 tk.checkTime)
    else
      iterationWrites (stateTransition current tk.event tk.transitionTime).1
        (stalenessUpdate (stateTransition current tk.event tk.transitionTime).1 tk.checkTime) ++
        stateLoopWrites
          (stalenessUpdate (stateTransition current tk.event tk.transitionTime).1 tk.checkTime)
          rest

/-- Modelled from the spec: the configuration surface consumed by
`create_version_message` (`config.rs` is not among the provided sources):
`listen_port`, `nonce` and `user_agent` (§6). -/
structure Config where
  port : Nat
  nonce : Nat
  user_agent : String
deriving DecidableEq, Repr

/-- `create_version_message` from `connection.rs`: protocol version 3,
services 1, the current time, the peer's address as recipient, loopback
with the configured port as sender, the configured nonce and user agent,
and stream list `[1]`. -/
def create_version_message (config : Config) (peer_addr : SocketAddr)
    (now : Int) : Message :=
  Message.Version 3 1 now peer_addr (SocketAddr.v4 127 0 0 1 config.port)
    config.nonce config.user_agent [1]

/-- The respond worker's per-frame match of `create_response_thread`
(`connection.rs` lines 192–208): only an inbound `Version` produces a
frame (`Verack`); every other arm is empty (the `Verack`, `Inv` and
`GetData` bodies are commented out in the source). -/
def respondToMessage : Message → List Message
  | .Version _ _ _ _ _ _ _ _ => [.Verack]
  | .Verack => []
  | .Addr _ => []
  | .Inv _ => []
  | .GetData _ => []
  | .Object _ => []

/-- The full output of the respond worker (`create_response_thread`): the
synthesised `Version` sent before any frame is read, then the responses to
the forwarded frames in order. -/
def responseThreadOutput (config : Config) (peer_addr : SocketAddr) (now : Int)
    (inbound : List Message) : List Message :=
  create_version_message config peer_addr now :: inbound.flatMap respondToMessage

/-- A trace of cell writes in which only the last write may be a terminal
state: every write of `Stale` or `Error` ends the trace. -/
def goodTrace : List ConnectionState → Bool
  | [] => true
  | s :: rest => if rest.isEmpty then true else !s.isTerminal && goodTrace rest

lemma goodTrace_cons {s : ConnectionState} {l : List ConnectionState}
    (hs : s.isTerminal = false) (hl : goodTrace l = true) :
    goodTrace (s :: l) = true := by
  cases l with
  | nil => rfl
  | cons a as =>
    have hg : goodTrace (s :: a :: as) = (!s.isTerminal && goodTrace (a :: as)) := rfl
    rw [hg, hs, hl]
    rfl

lemma stalenessUpdate_self_or_stale (s : ConnectionState) (now : Int) :
    stalenessUpdate s now = s ∨ stalenessUpdate s now = .Stale := by
  cases s with
  | Fresh t =>
    show (if now > t + 20 then ConnectionState.Stale else ConnectionState.Fresh t) =
        ConnectionState.Fresh t ∨
      (if now > t + 20 then ConnectionState.Stale else ConnectionState.Fresh t) =
        ConnectionState.Stale
    split
    · exact Or.inr rfl
    · exact Or.inl rfl
  | GotVerackAwaitingVersion t =>
    show (if now > t + 20 then ConnectionState.Stale
          else ConnectionState.GotVerackAwaitingVersion t) =
        ConnectionState.GotVerackAwaitingVersion t ∨
      (if now > t + 20 then ConnectionState.Stale
          else ConnectionState.GotVerackAwaitingVersion t) =
        ConnectionState.Stale
    split
    · exact Or.inr rfl
    · exact Or.inl rfl
  | GotVersionAwaitingVerack t =>
    show (if now > t + 20 then ConnectionState.Stale
          else ConnectionState.GotVersionAwaitingVerack t) =
        ConnectionState.GotVersionAwaitingVerack t ∨
      (if now > t + 20 then ConnectionState.Stale
          else ConnectionState.GotVersionAwaitingVerack t) =
        ConnectionState.Stale
    split
    · exact Or.inr rfl
    · exact Or.inl rfl
  | Established t =>
    show (if now > t + 600 then ConnectionState.Stale
          else ConnectionState.Established t) =
        ConnectionState.Established t ∨
      (if now > t + 600 then ConnectionState.Stale
          else ConnectionState.Established t) =
        ConnectionState.Stale
    split
    · exact Or.inr rfl
    · exact Or.inl rfl
  | Stale => exact Or.inl rfl
  | Error => exact Or.inl rfl

lemma stalenessUpdate_terminal {s : ConnectionState} (h : s.isTerminal = true)
    (now : Int) : stalenessUpdate s now = s := by
  cases s with
  | Stale => rfl
  | Error => rfl
  | Fresh t => simp [ConnectionState.isTerminal] at h
  | GotVerackAwaitingVersion t => simp [ConnectionState.isTerminal] at h
  | GotVersionAwaitingVerack t => simp [ConnectionState.isTerminal] at h
  | Established t => simp [ConnectionState.isTerminal] at h

/-- Claim C6: once the connection state cell holds `Error` or `Stale`, the
state worker exits its loop and performs no further write: in the trace of
cell writes produced by any sequence of inbound events and times, a write
of `Error` or `Stale` is always the last one. -/
theorem C6_state_monotonicity (s : ConnectionState) (ticks : List Tick) :
    goodTrace (stateLoopWrites s ticks) = true := by
  induction ticks generalizing s with
  | nil => rfl
  | cons tk rest ih =>
    rw [stateLoopWrites]
    set ns := (stateTransition s tk.event tk.transitionTime).1 with hns
    set ac := stalenessUpdate ns tk.checkTime with hac
    have hor : ac = ns ∨ ac = .Stale := hac ▸ stalenessUpdate_self_or_stale ns tk.checkTime
    have hterm_eq : ns.isTerminal = true → ac = ns := fun h => by
      rw [hac, stalenessUpdate_terminal h]
    by_cases hterm : ac.isTerminal = true
    · rw [if_pos hterm]
      unfold iterationWrites
      by_cases heq : ac = ns
      · rw [if_pos heq]; rfl
      · rw [if_neg heq]
        have h1 : ns.isTerminal = false := by
          cases h' : ns.isTerminal
          · rfl
          · exact absurd (hterm_eq h') heq
        have hg : goodTrace [ns, ac] = (!ns.isTerminal && goodTrace [ac]) := rfl
        rw [hg, h1]
        rfl
    · rw [if_neg hterm]
      rw [Bool.not_eq_true] at hterm
      unfold iterationWrites
      by_cases heq : ac = ns
      · rw [if_pos heq, List.singleton_append]
        exact goodTrace_cons (heq ▸ hterm) (ih ac)
      · rcases hor with h | h
        · exact absurd h heq
        · rw [h] at hterm
          simp [ConnectionState.isTerminal] at hterm

/-- Claim C2: the state worker's transition function agrees with the spec's
transition table: in `Fresh`, a `Version` moves to
`GotVersionAwaitingVerack(now)` and is forwarded, a `Verack` moves to
`GotVerackAwaitingVersion(now)` without forwarding, anything else moves to
`Error`; in `GotVersionAwaitingVerack` only `Verack` (forwarded) reaches
`Established`; in `GotVerackAwaitingVersion` only `Version` (forwarded)
reaches `Established`; in `Established` every frame keeps
`Established(now)` and is forwarded; a parse error or closed channel moves
any state to `Error` with nothing forwarded. -/
theorem C2_transition_table :
    (∀ (t now : Int) (v sv : Nat) (ts : Int) (ar af : SocketAddr) (n : Nat)
        (ua : String) (st : List Nat),
        stateTransition (.Fresh t) (.received (.Version v sv ts ar af n ua st)) now =
          (.GotVersionAwaitingVerack now, [.Version v sv ts ar af n ua st])) ∧
    (∀ t now : Int,
        stateTransition (.Fresh t) (.received .Verack) now =
          (.GotVerackAwaitingVersion now, [])) ∧
    (∀ (t now : Int) (m : Message), m.isVersionMsg = false → m.isVerackMsg = false →
        stateTransition (.Fresh t) (.received m) now = (.Error, [])) ∧
    (∀ t now : Int,
        stateTransition (.GotVersionAwaitingVerack t) (.received .Verack) now =
          (.Established now, [.Verack])) ∧
    (∀ (t now : Int) (m : Message), m.isVerackMsg = false →
        stateTransition (.GotVersionAwaitingVerack t) (.received m) now = (.Error, [])) ∧
    (∀ (t now : Int) (v sv : Nat) (ts : Int) (ar af : SocketAddr) (n : Nat)
        (ua : String) (st : List Nat),
        stateTransition (.GotVerackAwaitingVersion t)
            (.received (.Version v sv ts ar af n ua st)) now =
          (.Established now, [.Version v sv ts ar af n ua st])) ∧
    (∀ (t now : Int) (m : Message), m.isVersionMsg = false →
        stateTransition (.GotVerackAwaitingVersion t) (.received m) now = (.Error, [])) ∧
    (∀ (t now : Int) (m : Message),
        stateTransition (.Established t) (.received m) now = (.Established now, [m])) ∧
    (∀ (s : ConnectionState) (e : ParseError) (now : Int),
        stateTransition s (.parseFailure e) now = (.Error, [])) ∧
    (∀ (s : ConnectionState) (now : Int),
        stateTransition s .disconnected now = (.Error, [])) := by
  refine ⟨fun t now v sv ts ar af n ua st => rfl,
          fun t now => rfl,
          ?_,
          fun t now => rfl,
          ?_,
          fun t now v sv ts ar af n ua st => rfl,
          ?_,
          fun t now m => by cases m <;> rfl,
          fun s e now => by cases s <;> rfl,
          fun s now => by cases s <;> rfl⟩
  · intro t now m hv hk
    cases m
    case Version => simp [Message.isVersionMsg] at hv
    case Verack => simp [Message.isVerackMsg] at hk
    all_goals rfl
  · intro t now m hk
    cases m
    case Verack => simp [Message.isVerackMsg] at hk
    all_goals rfl
  · intro t now m hv
    cases m
    case Version => simp [Message.isVersionMsg] at hv
    all_goals rfl

/-- Witness for C2: the hypothesised clauses applied at concrete frames. -/
theorem C2_transition_table_witness :
    stateTransition (.Fresh 0) (.received (.Inv [])) 7 = (.Error, []) ∧
    stateTransition (.GotVersionAwaitingVerack 0) (.received (.Addr [])) 7 = (.Error, []) ∧
    stateTransition (.GotVerackAwaitingVersion 0) (.received .Verack) 7 = (.Error, []) :=
  ⟨C2_transition_table.2.2.1 0 7 (.Inv []) rfl rfl,
   C2_transition_table.2.2.2.2.1 0 7 (.Addr []) rfl,
   C2_transition_table.2.2.2.2.2.2.1 0 7 .Verack rfl⟩

/-- Claim C5: after a transition, a state carrying timestamp `t` becomes
`Stale` exactly when `now − t` exceeds the limit: 20 s for `Fresh`,
`GotVersionAwaitingVerack` and `GotVerackAwaitingVersion`, 10 minutes
(600 s) for `Established`; `Stale` and `Error` carry no timestamp and are
never staleness-checked (the update leaves them unchanged). -/
theorem C5_staleness_limits :
    (∀ t now : Int, stalenessUpdate (.Fresh t) now = .Stale ↔ now - t > 20) ∧
    (∀ t now : Int,
        stalenessUpdate (.GotVersionAwaitingVerack t) now = .Stale ↔ now - t > 20) ∧
    (∀ t now : Int,
        stalenessUpdate (.GotVerackAwaitingVersion t) now = .Stale ↔ now - t > 20) ∧
    (∀ t now : Int, stalenessUpdate (.Established t) now = .Stale ↔ now - t > 600) ∧
    (∀ now : Int, stalenessUpdate .Stale now = .Stale) ∧
    (∀ now : Int, stalenessUpdate .Error now = .Error) := by
  refine ⟨?_, ?_, ?_, ?_, fun now => rfl, fun now => rfl⟩
  · intro t now
    show (if now > t + 20 then ConnectionState.Stale else .Fresh t) = .Stale ↔ _
    by_cases h : now > t + 20
    · rw [if_pos h]
      exact ⟨fun _ => by omega, fun _ => rfl⟩
    · rw [if_neg h]
      exact ⟨fun hh => ConnectionState.noConfusion hh,
             fun hh => absurd (show now > t + 20 by omega) h⟩
  · intro t now
    show (if now > t + 20 then ConnectionState.Stale else .GotVersionAwaitingVerack t) = .Stale ↔ _
    by_cases h : now > t + 20
    · rw [if_pos h]
      exact ⟨fun _ => by omega, fun _ => rfl⟩
    · rw [if_neg h]
      exact ⟨fun hh => ConnectionState.noConfusion hh,
             fun hh => absurd (show now > t + 20 by omega) h⟩
  · intro t now
    show (if now > t + 20 then ConnectionState.Stale else .GotVerackAwaitingVersion t) = .Stale ↔ _
    by_cases h : now > t + 20
    · rw [if_pos h]
      exact ⟨fun _ => by omega, fun _ => rfl⟩
    · rw [if_neg h]
      exact ⟨fun hh => ConnectionState.noConfusion hh,
             fun hh => absurd (show now > t + 20 by omega) h⟩
  · intro t now
    show (if now > t + 600 then ConnectionState.Stale else .Established t) = .Stale ↔ _
    by_cases h : now > t + 600
    · rw [if_pos h]
      exact ⟨fun _ => by omega, fun _ => rfl⟩
    · rw [if_neg h]
      exact ⟨fun hh => ConnectionState.noConfusion hh,
             fun hh => absurd (show now > t + 600 by omega) h⟩

lemma countP_flatMap_respond_zero (p : Message → Bool)
    (hp : ∀ m, (respondToMessage m).countP p = 0) (l : List Message) :
    (l.flatMap respondToMessage).countP p = 0 := by
  induction l with
  | nil => rfl
  | cons a as ihl => rw [List.flatMap_cons, List.countP_append, ihl, hp]

/-- Claim C7: before reading any inbound frame the respond worker enqueues
exactly one `Version`, built as: protocol version 3, services 1, the
current time, the peer's socket address as recipient, loopback 127.0.0.1
with the configured port as sender, the configured nonce and user agent,
and stream list `[1]`. -/
theorem C7_initial_version_message (config : Config) (peer_addr : SocketAddr)
    (now : Int) (inbound : List Message) :
    responseThreadOutput config peer_addr now inbound =
      Message.Version 3 1 now peer_addr (SocketAddr.v4 127 0 0 1 config.port)
          config.nonce config.user_agent [1] :: inbound.flatMap respondToMessage ∧
    (responseThreadOutput config peer_addr now inbound).countP Message.isVersionMsg = 1 := by
  constructor
  · rfl
  · show (create_version_message config peer_addr now ::
        inbound.flatMap respondToMessage).countP Message.isVersionMsg = 1
    rw [List.countP_cons,
        countP_flatMap_respond_zero Message.isVersionMsg (fun m => by cases m <;> rfl)]
    rfl

/-- Counterexample for C8: a forwarded `Inv` advertising a hash certainly
absent from the inventory produces no `GetData` at all; the respond
worker's whole output is the initial `Version`. -/
theorem C8_missing_hash_no_getdata :
    responseThreadOutput ⟨8444, 7, "agent"⟩ (SocketAddr.v4 12 13 14 15 8444) 0
        [Message.Inv [List.replicate 32 0]] =
      [Message.Version 3 1 0 (SocketAddr.v4 12 13 14 15 8444)
        (SocketAddr.v4 127 0 0 1 8444) 7 "agent" [1]] := rfl

/-- Amended C8: the respond worker ignores forwarded `Inv` frames entirely
(the `GetData` filtering in the source is commented out): the `Inv` arm
produces nothing and no run of the respond worker ever emits a `GetData`. -/
theorem C8_inv_ignored :
    (∀ inventory, respondToMessage (Message.Inv inventory) = []) ∧
    ∀ (config : Config) (peer_addr : SocketAddr) (now : Int) (inbound : List Message),
      (responseThreadOutput config peer_addr now inbound).countP Message.isGetDataMsg = 0 := by
  constructor
  · intro inventory; rfl
  · intro config peer_addr now inbound
    show (create_version_message config peer_addr now ::
        inbound.flatMap respondToMessage).countP Message.isGetDataMsg = 0
    rw [List.countP_cons,
        countP_flatMap_respond_zero Message.isGetDataMsg (fun m => by cases m <;> rfl)]
    rfl

lemma read_bytes_ok {n : Nat} {s : List Nat} (h : n ≤ s.length) :
    read_bytes n s = .ok (s.take n, s.drop n) := by
  unfold read_bytes
  rw [if_neg (Nat.not_lt.mpr h)]

lemma read_bytes_error {n : Nat} {s : List Nat} {e : ParseError}
    (h : read_bytes n s = .error e) : e = .ShortRead := by
  unfold read_bytes at h
  split at h
  · injection h with h'
    exact h'.symm
  · exact Except.noConfusion h

lemma read_u64_ok {s : List Nat} (h : 8 ≤ s.length) :
    read_u64 s = .ok (beVal (s.take 8), s.drop 8) := by
  unfold read_u64
  rw [read_bytes_ok h]

lemma read_u32_ok {s : List Nat} (h : 4 ≤ s.length) :
    read_u32 s = .ok (beVal (s.take 4), s.drop 4) := by
  unfold read_u32
  rw [read_bytes_ok h]

lemma read_timestamp_ok {s : List Nat} (h : 8 ≤ s.length) :
    read_timestamp s = .ok (bytesToI64 (s.take 8), s.drop 8) := by
  unfold read_timestamp
  rw [read_bytes_ok h]

lemma read_u64_error {s : List Nat} {e : ParseError} (h : read_u64 s = .error e) :
    e = .ShortRead := by
  unfold read_u64 at h
  split at h
  · rename_i e' hb
    injection h with h'
    exact h' ▸ read_bytes_error hb
  · exact Except.noConfusion h

lemma read_u32_error {s : List Nat} {e : ParseError} (h : read_u32 s = .error e) :
    e = .ShortRead := by
  unfold read_u32 at h
  split at h
  · rename_i e' hb
    injection h with h'
    exact h' ▸ read_bytes_error hb
  · exact Except.noConfusion h

lemma read_u16_error {s : List Nat} {e : ParseError} (h : read_u16 s = .error e) :
    e = .ShortRead := by
  unfold read_u16 at h
  split at h
  · rename_i e' hb
    injection h with h'
    exact h' ▸ read_bytes_error hb
  · exact Except.noConfusion h

lemma read_timestamp_error {s : List Nat} {e : ParseError}
    (h : read_timestamp s = .error e) : e = .ShortRead := by
  unfold read_timestamp at h
  split at h
  · rename_i e' hb
    injection h with h'
    exact h' ▸ read_bytes_error hb
  · exact Except.noConfusion h

lemma read_var_int_error {m : Nat} {s : List Nat} {e : ParseError}
    (h : read_var_int m s = .error e) : e = .ShortRead ∨ e = .VarIntTooLarge := by
  cases s with
  | nil =>
    simp only [read_var_int] at h
    injection h with h'
    exact Or.inl h'.symm
  | cons b rest =>
    simp only [read_var_int] at h
    split at h
    · rename_i e' hif
      injection h with h'
      refine Or.inl (h' ▸ ?_)
      split at hif
      · exact Except.noConfusion hif
      · split at hif
        · exact read_u16_error hif
        · split at hif
          · exact read_u32_error hif
          · exact read_u64_error hif
    · rename_i v r hif
      split at h
      · injection h with h'
        exact Or.inr h'.symm
      · exact Except.noConfusion h

lemma parse_object_type_code_error {c : Nat} {e : ParseError}
    (h : parse_object_type_code c = .error e) : e = .UnknownObjectType := by
  unfold parse_object_type_code at h
  split at h
  any_goals exact Except.noConfusion h
  injection h with h'
  exact h'.symm

lemma read_object_error {t : ObjectType} {v : Nat} {s : List Nat} {e : ParseError}
    (h : read_object t v s = .error e) : e = .UnknownObjectVersion := by
  unfold read_object at h
  split at h
  · unfold GetPubKeyV4.read at h
    exact Except.noConfusion h
  · injection h with h'
    exact h'.symm

lemma check_no_more_data_error {s : List Nat} {e : ParseError}
    (h : check_no_more_data s = .error e) : e = .TrailingBytes := by
  unfold check_no_more_data at h
  split at h
  · exact Except.noConfusion h
  · injection h with h'
    exact h'.symm

lemma read_u64_ok_inv {s : List Nat} {v : Nat} {r : List Nat}
    (h : read_u64 s = .ok (v, r)) :
    8 ≤ s.length ∧ v = beVal (s.take 8) ∧ r = s.drop 8 := by
  unfold read_u64 at h
  split at h
  · exact Except.noConfusion h
  · rename_i bs r' hb
    unfold read_bytes at hb
    split at hb
    · exact Except.noConfusion hb
    · rename_i hlen
      injection hb with hb'
      injection hb' with hb1 hb2
      subst hb1
      subst hb2
      injection h with h'
      injection h' with h1 h2
      subst h1
      subst h2
      exact ⟨by omega, rfl, rfl⟩

lemma read_timestamp_ok_inv {s : List Nat} {v : Int} {r : List Nat}
    (h : read_timestamp s = .ok (v, r)) :
    8 ≤ s.length ∧ v = bytesToI64 (s.take 8) ∧ r = s.drop 8 := by
  unfold read_timestamp at h
  split at h
  · exact Except.noConfusion h
  · rename_i bs r' hb
    unfold read_bytes at hb
    split at hb
    · exact Except.noConfusion hb
    · rename_i hlen
      injection hb with hb'
      injection hb' with hb1 hb2
      subst hb1
      subst hb2
      injection h with h'
      injection h' with h1 h2
      subst h1
      subst h2
      exact ⟨by omega, rfl, rfl⟩

lemma verify_proof_expired {nonce : Nat} {body : List Nat} {expiry : Int}
    {cfg : ProofOfWorkConfig} (h : expiry < cfg.now - cfg.past_grace) :
    verify_proof nonce body expiry cfg = .error .ObjectAlreadyDied := by
  unfold verify_proof
  rw [if_pos h]

/-- The §8 object-envelope payload: nonce `0x101b07`, expiry
`0x0007060504030201`, type code 0 (`GetPubKey`), version 4, stream number
254, empty body. -/
def c3payloadBytes : List Nat :=
  [0x00, 0x00, 0x00, 0x00, 0x00, 0x10, 0x1b, 0x07,
   0x00, 0x07, 0x06, 0x05, 0x04, 0x03, 0x02, 0x01,
   0x00, 0x00, 0x00, 0x00,
   0x04,
   0xfd, 0x00, 0xfe]

/-- The object of the §8 object-envelope scenario. -/
def objC3 : ObjectMessage :=
  ⟨0x101b07, 0x0007060504030201, .GetPubKey, 4, 254, .getPubKeyV4⟩

/-- An object payload with a valid proof of work (nonce `0x675ee`) but the
unknown object-type code 5. -/
def unknownTypePayloadBytes : List Nat :=
  [0x00, 0x00, 0x00, 0x00, 0x00, 0x06, 0x75, 0xee,
   0x00, 0x07, 0x06, 0x05, 0x04, 0x03, 0x02, 0x01,
   0x00, 0x00, 0x00, 0x05,
   0x04,
   0xfd, 0x00, 0xfe]

/-- Counterexample for C1: an otherwise-valid inbound `object` whose
`expiry < now − 300 s` makes the decoder (which the read worker runs)
return the parse error `ObjectExpired`, and the state worker maps a
forwarded parse error to `Error` — the connection state does transition to
`Error`, so the connection does not survive. -/
theorem C1_counterexample :
    ObjectMessage.read_with_time (0x0007060504030201 + 301) c3payloadBytes =
      .error .ObjectExpired ∧
    stateTransition (.Established 0) (.parseFailure .ObjectExpired) 0 =
      (.Error, []) :=
  ⟨rfl, rfl⟩

/-- Amended C1: the PoW check runs inside the object decoder, so a PoW
failure on an inbound `object` surfaces as a parse error from the read
worker (`ObjectExpired` when the expiry lies more than 300 s in the past),
and the state worker maps any forwarded parse error to `Error` with
nothing forwarded: the object is dropped and the connection terminates. -/
theorem C1_pow_error_terminates :
    (∀ (now : Int) (payload : List Nat),
        16 ≤ payload.length →
        payload.length ≤ MAX_PAYLOAD_LENGTH_FOR_OBJECT →
        bytesToI64 ((payload.drop 8).take 8) < now - OBJECT_EXPIRY_CUTOFF →
        ObjectMessage.read_with_time now payload = .error .ObjectExpired) ∧
    (∀ (s : ConnectionState) (e : ParseError) (now : Int),
        stateTransition s (.parseFailure e) now = (.Error, [])) := by
  constructor
  · intro now payload h16 hmax hexp
    have hmod : ¬ (payload.length % 2 ^ 32 > MAX_PAYLOAD_LENGTH_FOR_OBJECT) := by
      have hle := Nat.mod_le payload.length (2 ^ 32)
      omega
    unfold ObjectMessage.read_with_time
    rw [if_neg hmod]
    simp only [read_u64_ok (show 8 ≤ payload.length by omega),
               read_timestamp_ok
                 (show 8 ≤ (List.drop 8 payload).length by
                   rw [List.length_drop]; omega)]
    rw [verify_proof_expired hexp]
    rfl
  · intro s e now
    cases s <;> rfl

/-- Witness for the amended C1, at the §8 payload made 301 s stale. -/
theorem C1_pow_error_terminates_witness :
    ObjectMessage.read_with_time (0x0007060504030201 + 301) c3payloadBytes =
      .error .ObjectExpired ∧
    stateTransition .Stale (.parseFailure .BadMagic) 5 = (.Error, []) :=
  ⟨C1_pow_error_terminates.1 (0x0007060504030201 + 301) c3payloadBytes
      (by decide) (by decide) (by decide),
   C1_pow_error_terminates.2 .Stale .BadMagic 5⟩

/-- Claim C9: decoding an object payload fails with `PayloadTooBig` exactly
when the payload length exceeds the object bound of 2^18 bytes (§6); every
payload within the bound passes the length check and no later parsing step
ever produces `PayloadTooBig`. The hypothesis reflects the `as u32` cast
of the length in the source; payloads handed over by the frame reader
always satisfy it. -/
theorem C9_object_payload_bound (now : Int) (payload : List Nat)
    (hlt : payload.length < 2 ^ 32) :
    ObjectMessage.read_with_time now payload = .error .PayloadTooBig ↔
      MAX_PAYLOAD_LENGTH_FOR_OBJECT < payload.length := by
  have hmodeq : payload.length % 2 ^ 32 = payload.length := Nat.mod_eq_of_lt hlt
  constructor
  · intro h
    by_contra hgt
    unfold ObjectMessage.read_with_time at h
    rw [hmodeq, if_neg hgt] at h
    split at h
    · rename_i e' h64
      injection h with h'
      rw [read_u64_error h64] at h'
      exact ParseError.noConfusion h'
    · rename_i nonce s1 h64
      split at h
      · rename_i e' hts
        injection h with h'
        rw [read_timestamp_error hts] at h'
        exact ParseError.noConfusion h'
      · rename_i expiry s2 hts
        split at h
        · rename_i ve hv
          injection h with h'
          cases ve <;> exact ParseError.noConfusion h'
        · rename_i u hv
          split at h
          · rename_i e' h32
            injection h with h'
            rw [read_u32_error h32] at h'
            exact ParseError.noConfusion h'
          · rename_i code s3 h32
            split at h
            · rename_i e' hot
              injection h with h'
              rw [parse_object_type_code_error hot] at h'
              exact ParseError.noConfusion h'
            · rename_i ot hot
              split at h
              · rename_i e' hvv
                injection h with h'
                rcases read_var_int_error hvv with he | he <;> rw [he] at h' <;>
                  exact ParseError.noConfusion h'
              · rename_i ver s4 hvv
                split at h
                · rename_i e' hsv
                  injection h with h'
                  rcases read_var_int_error hsv with he | he <;> rw [he] at h' <;>
                    exact ParseError.noConfusion h'
                · rename_i sn s5 hsv
                  split at h
                  · rename_i e' hro
                    injection h with h'
                    rw [read_object_error hro] at h'
                    exact ParseError.noConfusion h'
                  · rename_i ob s6 hro
                    split at h
                    · rename_i e' hnd
                      injection h with h'
                      rw [check_no_more_data_error hnd] at h'
                      exact ParseError.noConfusion h'
                    · exact Except.noConfusion h
  · intro hgt
    unfold ObjectMessage.read_with_time
    rw [hmodeq, if_pos hgt]

/-- Witness for C9: a payload one byte over the 2^18 bound is rejected as
`PayloadTooBig`. -/
theorem C9_object_payload_bound_witness :
    (List.replicate 262145 (0 : Nat)).length < 2 ^ 32 ∧
    ObjectMessage.read_with_time 0 (List.replicate 262145 (0 : Nat)) =
      .error .PayloadTooBig := by
  have hlen : (List.replicate 262145 (0 : Nat)).length = 262145 :=
    List.length_replicate 262145 0
  constructor
  · rw [hlen]
    norm_num
  · exact (C9_object_payload_bound 0 _ (by rw [hlen]; norm_num)).mpr
      (by rw [hlen]; decide)

lemma read_with_time_nonpow_error_verify_ok {now : Int} {payload : List Nat}
    {err : ParseError}
    (herr : ∀ ve : VerifyError, verify_to_parse_error ve ≠ err)
    (h1 : err ≠ .PayloadTooBig) (h2 : err ≠ .ShortRead)
    (h : ObjectMessage.read_with_time now payload = .error err) :
    verify_proof (beVal (payload.take 8)) (payload.drop 8)
        (bytesToI64 ((payload.drop 8).take 8))
        ⟨1000, 1000, OBJECT_EXPIRY_CUTOFF, MAX_TTL, 300, now⟩ = .ok () := by
  unfold ObjectMessage.read_with_time at h
  split at h
  · injection h with h'
    exact absurd h'.symm h1
  · split at h
    · rename_i e' h64
      injection h with h'
      rw [read_u64_error h64] at h'
      exact absurd h'.symm h2
    · rename_i nonce s1 h64
      split at h
      · rename_i e' hts
        injection h with h'
        rw [read_timestamp_error hts] at h'
        exact absurd h'.symm h2
      · rename_i expiry s2 hts
        split at h
        · rename_i ve hv
          injection h with h'
          exact absurd h' (herr ve)
        · rename_i u hv
          obtain ⟨hl64, hn, hs1⟩ := read_u64_ok_inv h64
          subst hn
          subst hs1
          obtain ⟨hl8, hexp, hs2⟩ := read_timestamp_ok_inv hts
          subst hexp
          cases u
          exact hv

/-- Claim C10: in object decoding the PoW check over the nonce, the payload
bytes after the nonce, and the expiry runs before the type code, version,
stream number and body are parsed: whenever the PoW check fails (on a
payload long enough to carry nonce and expiry and within the length
bound), the decoder returns the mapped PoW error; and the decoder returns
`UnknownObjectType` or `UnknownObjectVersion` only when the PoW check
succeeded. -/
theorem C10_pow_checked_first :
    (∀ (now : Int) (payload : List Nat) (e : VerifyError),
        16 ≤ payload.length →
        payload.length ≤ MAX_PAYLOAD_LENGTH_FOR_OBJECT →
        verify_proof (beVal (payload.take 8)) (payload.drop 8)
            (bytesToI64 ((payload.drop 8).take 8))
            ⟨1000, 1000, OBJECT_EXPIRY_CUTOFF, MAX_TTL, 300, now⟩ = .error e →
        ObjectMessage.read_with_time now payload = .error (verify_to_parse_error e)) ∧
    (∀ (now : Int) (payload : List Nat),
        (ObjectMessage.read_with_time now payload = .error .UnknownObjectType ∨
         ObjectMessage.read_with_time now payload = .error .UnknownObjectVersion) →
        verify_proof (beVal (payload.take 8)) (payload.drop 8)
            (bytesToI64 ((payload.drop 8).take 8))
            ⟨1000, 1000, OBJECT_EXPIRY_CUTOFF, MAX_TTL, 300, now⟩ = .ok ()) := by
  constructor
  · intro now payload e h16 hmax hv
    have hmod : ¬ (payload.length % 2 ^ 32 > MAX_PAYLOAD_LENGTH_FOR_OBJECT) := by
      have hle := Nat.mod_le payload.length (2 ^ 32)
      omega
    unfold ObjectMessage.read_with_time
    rw [if_neg hmod]
    simp only [read_u64_ok (show 8 ≤ payload.length by omega),
               read_timestamp_ok
                 (show 8 ≤ (List.drop 8 payload).length by
                   rw [List.length_drop]; omega)]
    rw [hv]
  · intro now payload h
    rcases h with h | h
    · exact read_with_time_nonpow_error_verify_ok
        (fun ve => by cases ve <;> decide) (by decide) (by decide) h
    · exact read_with_time_nonpow_error_verify_ok
        (fun ve => by cases ve <;> decide) (by decide) (by decide) h

set_option maxHeartbeats 40000000 in
/-- Witness for C10: the expired §8 payload decodes to `ObjectExpired` via
the first clause, and the unknown-type-code payload with a valid proof of
work decodes to `UnknownObjectType`, so by the second clause its PoW check
succeeds. -/
theorem C10_pow_checked_first_witness :
    ObjectMessage.read_with_time (0x0007060504030201 + 301) c3payloadBytes =
      .error (verify_to_parse_error .ObjectAlreadyDied) ∧
    verify_proof (beVal (unknownTypePayloadBytes.take 8))
        (unknownTypePayloadBytes.drop 8)
        (bytesToI64 ((unknownTypePayloadBytes.drop 8).take 8))
        ⟨1000, 1000, OBJECT_EXPIRY_CUTOFF, MAX_TTL, 300,
          0x0007060504030201 - 300⟩ = .ok () :=
  ⟨C10_pow_checked_first.1 (0x0007060504030201 + 301) c3payloadBytes
      .ObjectAlreadyDied (by decide) (by decide) rfl,
   C10_pow_checked_first.2 (0x0007060504030201 - 300) unknownTypePayloadBytes
      (Or.inl rfl)⟩

set_option maxHeartbeats 40000000 in
/-- Claim C3: for the concrete object with nonce `0x101b07`, expiry
`0x0007060504030201`, type `GetPubKey`, version 4, stream number 254 and
empty body, `ObjectMessage::payload` is exactly
`00 00 00 00 00 10 1B 07 | 00 07 06 05 04 03 02 01 | 00 00 00 00 | 04 |
FD 00 FE` followed by the (empty) body, and decoding that payload with
`now = expiry − 300 s` succeeds and returns exactly those fields. -/
theorem C3_object_envelope_roundtrip :
    ObjectMessage.payload objC3 = c3payloadBytes ∧
    ObjectMessage.read_with_time (0x0007060504030201 - 300) c3payloadBytes =
      .ok objC3 :=
  ⟨rfl, rfl⟩

/-- The two known nodes of the §8 addr round-trip scenario. -/
def addrNode1 : KnownNode := ⟨1, 2, 3, .v4 12 13 14 15 1617⟩

/-- The second node of the §8 addr round-trip scenario. -/
def addrNode2 : KnownNode := ⟨4, 5, 6, .v4 22 23 24 25 2627⟩

/-- The expected encoding of the §8 addr round-trip scenario. -/
def addrPayloadBytes : List Nat :=
  [2,
   0, 0, 0, 0, 0, 0, 0, 1,
   0, 0, 0, 2,
   0, 0, 0, 0, 0, 0, 0, 3,
   0, 0, 0, 0, 0, 0, 0, 0, 0, 0, 0xff, 0xff, 12, 13, 14, 15,
   6, 81,
   0, 0, 0, 0, 0, 0, 0, 4,
   0, 0, 0, 5,
   0, 0, 0, 0, 0, 0, 0, 6,
   0, 0, 0, 0, 0, 0, 0, 0, 0, 0, 0xff, 0xff, 22, 23, 24, 25,
   10, 67]

/-- Claim C4: encoding the `Addr` message holding the two §8 nodes yields
exactly the expected payload (count byte 02, then per node the 8-byte
big-endian timestamp, 4-byte stream, 8-byte services, IPv4-mapped 16-byte
address and 2-byte port 06 51 / 0A 43), and decoding that payload restores
exactly the two nodes. -/
theorem C4_addr_roundtrip :
    AddrMessage.payload ⟨[addrNode1, addrNode2]⟩ = addrPayloadBytes ∧
    AddrMessage.read addrPayloadBytes = .ok ⟨[addrNode1, addrNode2]⟩ :=
  ⟨rfl, rfl⟩
